import Mathlib

/-!
# Verification of the MRT signing backend (`src/index.js`)

Shallow embedding of the signing service in `src/index.js`: the
`/api/sign` request handler, its `rateLimiter` middleware, the
`usedNonces` registry with batch eviction, and the weighted rarity
sampler `getRandomRarity`.  JavaScript numbers are IEEE-754 doubles,
every one of which is a rational number, so numeric request fields are
embedded as `ℚ`; the five cumulative probability boundaries of the
rarity sampler are embedded as the *exact* dyadic rationals produced by
the source's left-to-right float64 additions.  External library calls
(`ethers`, `crypto`) are not part of `src/`; they are modelled from the
spec where marked.
-/

set_option maxRecDepth 100000

namespace MRT

/-- `s.startsWith p`, computed on the character lists so that it reduces by
`decide` (the core `String.startsWith` loops over byte positions by
well-founded recursion, which the kernel does not unfold). -/
def strStarts (s p : String) : Bool :=
  s.data.take p.data.length == p.data

/-- The characters of `s` from index `n` on all satisfy `f` (the character-list
counterpart of `(s.drop n).all f`). -/
def strAllFrom (s : String) (n : ℕ) (f : Char → Bool) : Bool :=
  (s.data.drop n).all f

/-- A hexadecimal digit, as accepted in `0x…` literals. -/
def isHexChar (c : Char) : Bool :=
  c.isDigit || ('a' ≤ c && c ≤ 'f') || ('A' ≤ c && c ≤ 'F')

/-- Modelled from the spec: `ethers.isAddress` (library code, not in `src/`) —
"address well-formed", i.e. a 20-byte chain address written as `0x` followed by
40 hex digits.  (The library additionally enforces the EIP-55 checksum on
mixed-case input; no claim depends on that refinement and all test inputs used
below are single-case, where both definitions agree.) -/
def isAddress (s : String) : Bool :=
  strStarts s "0x" && s.length == 42 && strAllFrom s 2 isHexChar

/-- Modelled from the spec and `src/README.md`: a well-formed secp256k1 private
key as accepted by `new ethers.Wallet(...)` — `0x` followed by 64 hex digits
(the README documents the key in exactly this shape).  `new ethers.Wallet`
throws inside the handler's `try` block when this fails. -/
def isPrivateKey (s : String) : Bool :=
  strStarts s "0x" && s.length == 66 && strAllFrom s 2 isHexChar

/-- A well-formed `bytes32` value as required by
`ethers.solidityPacked(['…','bytes32',…], […, nonce, …])` (src/index.js:146-151):
`0x` followed by exactly 64 hex digits.  `solidityPacked` throws otherwise. -/
def isBytes32Hex (s : String) : Bool :=
  strStarts s "0x" && s.length == 66 && strAllFrom s 2 isHexChar

/-- A value acceptable for the `uint256` slot of `solidityPacked`: a
non-negative integer below `2 ^ 256`.  A fractional JS number (e.g. `2.5`)
makes `solidityPacked` throw. -/
def isUint256 (q : ℚ) : Bool :=
  q.den == 1 && decide (0 ≤ q.num) && decide (q.num < 2 ^ 256)

/-- Modelled from the spec: `crypto.createHash('sha256').update(nonce).digest('hex')`
(library code, not in `src/`) — "a one-way hash of the raw nonce".  The claims
depend only on this being a deterministic function of the nonce string, which
any injective tagging satisfies. -/
def nonceHash (s : String) : String := "sha256:" ++ s

/-! ## JSON request values

The handler reads `address`, `quantity` and `nonce` from the parsed JSON body.
Each field is embedded with the value shapes the claims exercise: strings and
absence for `address`/`nonce` (any non-string fails the source's
`typeof`/`isAddress` tests, collapsed into `nonString`), and numbers, `NaN`
and absence for `quantity` (finite doubles are rationals). -/

/-- The JSON `address` field. -/
inductive AddressVal where
  | undef
  | str (s : String)
  | nonString
deriving DecidableEq

/-- The JSON `quantity` field. -/
inductive QuantityVal where
  | undef
  | nan
  | num (q : ℚ)
deriving DecidableEq

/-- The JSON `nonce` field. -/
inductive NonceVal where
  | undef
  | str (s : String)
  | nonString
deriving DecidableEq

/-- The string carried by an `AddressVal.str`, defaulting to `""`. -/
def AddressVal.getStr : AddressVal → String
  | .str s => s
  | _ => ""

/-- The rational carried by a `QuantityVal.num`, defaulting to `0`. -/
def QuantityVal.getNum : QuantityVal → ℚ
  | .num q => q
  | _ => 0

/-- The string carried by a `NonceVal.str`, defaulting to `""`. -/
def NonceVal.getStr : NonceVal → String
  | .str s => s
  | _ => ""

/-- src/index.js:82 — `if (!address || !ethers.isAddress(address))`: the request
passes the address check iff the field is a string that `isAddress` accepts
(`""` is falsy and also fails `isAddress`; non-strings fail `isAddress`). -/
def addressValid : AddressVal → Bool
  | .str s => isAddress s
  | _ => false

/-- src/index.js:87 — `if (!quantity || isNaN(quantity) || quantity <= 0 || quantity > 10)`:
a numeric quantity passes iff `0 < q ∧ q ≤ 10` (`!quantity` rejects `0` and
`NaN`, `isNaN` rejects `NaN`, the comparisons reject the rest). Note the source
performs no integrality test. -/
def quantityValid : QuantityVal → Bool
  | .num q => decide (0 < q) && decide (q ≤ 10)
  | _ => false

/-- src/index.js:92 — `if (!nonce || typeof nonce !== 'string' || !nonce.startsWith('0x'))`:
a nonce passes iff it is a string starting with `"0x"` (`""` is falsy and does
not start with `"0x"`).  Note the source checks neither length nor hex
content. -/
def nonceValid : NonceVal → Bool
  | .str s => strStarts s "0x"
  | _ => false

/-- An inbound `/api/sign` request: the three JSON body fields plus `req.ip`,
the opaque client identity used by the rate limiter. -/
structure SignRequest where
  address : AddressVal
  quantity : QuantityVal
  nonce : NonceVal
  ip : String
deriving DecidableEq

/-! ## Rate limiter (src/index.js:34-61)

`requestCounts` is a plain JS object keyed by `req.ip`; entries hold a count
and the window-start timestamp.  Timestamps are `Date.now()` milliseconds,
embedded as `ℕ` (for `now < timestamp` JS computes a negative difference that
is not `> RATE_LIMIT_WINDOW`, and truncated `ℕ` subtraction gives `0`, also
not `> RATE_LIMIT_WINDOW`, so the embedded guard agrees).  The 5-minute
`setInterval` sweep only deletes entries whose window has elapsed; for such an
entry `rateLimiter` behaves identically whether the entry is absent or
reset, so the sweep is invisible to `rateLimiterStep` and is not modelled. -/

/-- One `requestCounts[ip]` record: `{ count, timestamp }`. -/
structure RateEntry where
  count : ℕ
  timestamp : ℕ
deriving DecidableEq

/-- The `requestCounts` object, as an association list keyed by client ip. -/
abbrev RequestCounts := List (String × RateEntry)

/-- src/index.js:35 — `const RATE_LIMIT_WINDOW = 60 * 1000`. -/
def RATE_LIMIT_WINDOW : ℕ := 60 * 1000

/-- src/index.js:36 — `const MAX_REQUESTS_PER_WINDOW = 10`. -/
def MAX_REQUESTS_PER_WINDOW : ℕ := 10

/-- Property lookup `requestCounts[ip]`. -/
def lookupCount : RequestCounts → String → Option RateEntry
  | [], _ => none
  | (k, v) :: rest, ip => if k = ip then some v else lookupCount rest ip

/-- Property assignment `requestCounts[ip] = e`. -/
def setCount : RequestCounts → String → RateEntry → RequestCounts
  | [], ip, e => [(ip, e)]
  | (k, v) :: rest, ip, e =>
      if k = ip then (ip, e) :: rest else (k, v) :: setCount rest ip e

/-- src/index.js:50-55 — the entry the `rateLimiter` middleware increments for
`ip` at time `now`: a fresh `{count: 0, timestamp: now}` when absent, the
stored entry reset to `{count: 0, timestamp: now}` when its window elapsed,
and the stored entry otherwise. -/
def effectiveEntry (rc : RequestCounts) (ip : String) (now : ℕ) : RateEntry :=
  let e0 : RateEntry :=
    match lookupCount rc ip with
    | none => ⟨0, now⟩
    | some e => e
  if now - e0.timestamp > RATE_LIMIT_WINDOW then ⟨0, now⟩ else e0

/-- src/index.js:47-61 — the `rateLimiter` middleware: increments the client's
counter (creating or resetting it first as needed) and admits the request iff
the incremented count is at most `MAX_REQUESTS_PER_WINDOW`; returns the
admission verdict together with the updated `requestCounts`. -/
def rateLimiterStep (rc : RequestCounts) (ip : String) (now : ℕ) :
    Bool × RequestCounts :=
  let e := effectiveEntry rc ip now
  (decide (e.count + 1 ≤ MAX_REQUESTS_PER_WINDOW),
   setCount rc ip ⟨e.count + 1, e.timestamp⟩)

/-- A sequence of requests from one client at the given times, run through the
rate limiter; returns each request's admission verdict and the final state. -/
def runRequests (rc : RequestCounts) (ip : String) :
    List ℕ → List Bool × RequestCounts
  | [] => ([], rc)
  | t :: ts =>
      let st := rateLimiterStep rc ip t
      let rest := runRequests st.2 ip ts
      (st.1 :: rest.1, rest.2)

example : (rateLimiterStep [] "a" 5).1 = true := by decide
example : (rateLimiterStep [("a", ⟨10, 0⟩)] "a" 5).1 = false := by decide
example : (rateLimiterStep [("a", ⟨10, 0⟩)] "a" 70000).1 = true := by decide

/-! ## Nonce registry (src/index.js:31, 97-101, 158-164)

`usedNonces` is a JS `Set`, which iterates in insertion order; it is embedded
as a duplicate-free `List String` whose head is the oldest-inserted element,
so `Array.from(usedNonces).slice(0, 100)` is `List.take 100` and deleting that
batch is `List.drop 100`. -/

/-- src/index.js:161 — the registry size ceiling, `usedNonces.size > 1000`. -/
def NONCE_CEILING : ℕ := 1000

/-- src/index.js:162 — the eviction batch size, `.slice(0, 100)`. -/
def EVICTION_BATCH : ℕ := 100

/-- `usedNonces.add(h)`: a `Set` insertion is a no-op on a present element and
appends in insertion order otherwise. -/
def setAdd (l : List String) (h : String) : List String :=
  if h ∈ l then l else l ++ [h]

/-- src/index.js:158-164 — commit the nonce hash then evict: `usedNonces.add(nonceHash)`
followed by `if (usedNonces.size > 1000) { Array.from(usedNonces).slice(0, 100).forEach(n => usedNonces.delete(n)) }`. -/
def commitNonce (l : List String) (h : String) : List String :=
  let l1 := setAdd l h
  if l1.length > NONCE_CEILING then l1.drop EVICTION_BATCH else l1

/-! ## Rarity generator (src/index.js:112-137)

`getRandomRarity` draws `crypto.randomBytes(4).readUInt32LE() / 0xFFFFFFFF`
(a float64 division of a uniform 32-bit integer) and scans
`Object.entries(rarityProbabilities)` — the keys `"0".."4"` in ascending
integer-key order — accumulating `cumulativeProbability += probability` in
float64 and returning the first tier with `random <= cumulativeProbability`.
Every float64 is a dyadic rational; `cumulativeBoundaries` lists the *exact*
values of the five accumulated sums (`0.5`, `0.5 + 0.25`, … computed
left-to-right with round-to-nearest-even), whose final element is exactly
`1.0`.  The sampler is embedded over the drawn rational directly. -/

/-- The exact float64 values of the running sums of
`rarityProbabilities = {0: 0.50, 1: 0.25, 2: 0.15, 3: 0.07, 4: 0.03}`
(src/index.js:112-118) as accumulated at src/index.js:125. -/
def cumulativeBoundaries : List ℚ :=
  [mkRat 1 2, mkRat 3 4, mkRat 8106479329266893 9007199254740992,
   mkRat 4368491638549381 4503599627370496, 1]

/-- The loop of src/index.js:124-129: return the first tier index whose
cumulative boundary is `≥` the draw, or `none` when the loop falls through. -/
def rarityScanAux (r : ℚ) : ℕ → List ℚ → Option ℕ
  | _, [] => none
  | i, b :: bs => if r ≤ b then some i else rarityScanAux r (i + 1) bs

/-- The scan of `getRandomRarity` over the reference boundaries. -/
def rarityScan (r : ℚ) : Option ℕ :=
  rarityScanAux r 0 cumulativeBoundaries

/-- src/index.js:120-131 — `getRandomRarity` as a function of the drawn value:
the scan's result, with the defensive `return 0` fall-through as default. -/
def getRandomRarity (r : ℚ) : ℕ :=
  (rarityScan r).getD 0

/-- src/index.js:121-122 — the exact value of
`crypto.randomBytes(4).readUInt32LE() / 0xFFFFFFFF` for a drawn 32-bit word
`u`.  (The float64 division rounds this rational to the nearest double, which
cannot leave `[0, 1]` — `1` is representable and the quotient is at most `1` —
and is exact at `u = 0xFFFFFFFF`, where the quotient is exactly `1`.) -/
def drawValue (u : ℕ) : ℚ :=
  mkRat u (2 ^ 32 - 1)

/-- src/index.js:134 — the number of iterations of
`for (let i = 0; i < quantity; i++)` for a (possibly fractional) JS number
`quantity`: zero when `quantity ≤ 0`, and `⌈quantity⌉` otherwise. -/
def loopCount (q : ℚ) : ℕ :=
  if q ≤ 0 then 0 else (q.num.toNat + q.den - 1) / q.den

example : loopCount 1 = 1 := by decide
example : loopCount 10 = 10 := by decide
example : loopCount (mkRat 5 2) = 3 := by decide
example : getRandomRarity 0 = 0 := by decide
example : getRandomRarity 1 = 4 := by decide
example : getRandomRarity (mkRat 3 5) = 1 := by decide

/-! ## The `/api/sign` handler (src/index.js:72-176)

The handler is embedded as a pure step function from the server's mutable
state (`usedNonces`, `requestCounts`), the environment, the request, the
current time and the random draw stream, to a response and the next state.
The `catch` block at src/index.js:172-175 turns any exception thrown between
`new ethers.Wallet` and `signMessage` into a 500 response whose error string
interpolates `error.message`; that throwing region is embedded as an
`Except String` value. -/

/-- The process environment as the handler reads it: `process.env.SIGNER_PRIVATE_KEY`
(src/index.js:103). -/
structure Env where
  signerPrivateKey : Option String
deriving DecidableEq

/-- The module-level mutable state: `usedNonces` (src/index.js:31) and
`requestCounts` (src/index.js:34). -/
structure ServerState where
  usedNonces : List String
  requestCounts : RequestCounts
deriving DecidableEq

/-- The JSON bodies the handler can send, tagged by status code:
`ok` = 200 (src/index.js:167-170), `badRequest` = 400, `rateLimited` = 429
(src/index.js:58), `serverError` = 500. -/
inductive SignResponse where
  | ok (signature : List ℕ) (nonce : String)
  | badRequest (error : String)
  | rateLimited (error : String)
  | serverError (error : String)
deriving DecidableEq

/-- Whether a response is the 200 success carrying a signature. -/
def SignResponse.isOk : SignResponse → Bool
  | .ok _ _ => true
  | _ => false

/-- Modelled from the spec: `ethers.keccak256(ethers.solidityPacked(...))`
(library code, not in `src/`) — "a pure, deterministic function" of the packed
fields; embedded as an injective tagging of its arguments, which is all the
claims use. -/
def messageHash (addr nonce : String) (q : ℚ) (rarities : List ℕ) : String :=
  "keccak256:" ++ addr ++ ":" ++ nonce ++ ":" ++ toString q.num ++ ":"
    ++ toString rarities

/-- Modelled from the spec: `wallet.signMessage` (library code, not in `src/`) —
a 65-byte recoverable signature over the personal-message-prefixed digest,
deterministic in the key and digest; the claims never inspect the bytes. -/
def signatureBytes (key digest : String) : List ℕ :=
  (List.range 65).map (fun i => (key.length + 7 * digest.length + i) % 256)

/-- src/index.js:110-156 — the region of the `try` block that can throw, from
`new ethers.Wallet(signerPrivateKey)` to `wallet.signMessage`: wallet
construction throws on a malformed key; the rarity loop then draws
`loopCount quantity` tiers; `ethers.solidityPacked` throws on a `nonce` that
is not a well-formed `bytes32` (checked before the `uint256` slot, matching
the type-array order) and on a `quantity` that is not a `uint256` integer;
signing then succeeds, and the result is
`fullSignature = encodedRarities ++ signature` (src/index.js:156).  Thrown
errors carry the message interpolated by the catch handler; the message texts
model the library's, and no claim depends on their wording, only on the
response embedding them. -/
def tryGenerate (key addr : String) (q : ℚ) (nonce : String)
    (draws : ℕ → ℚ) : Except String (List ℕ) :=
  if isPrivateKey key = false then .error "invalid private key" else
  let rarities := (List.range (loopCount q)).map (fun i => getRandomRarity (draws i))
  if isBytes32Hex nonce = false then .error "invalid BytesLike value" else
  if isUint256 q = false then .error "invalid BigNumberish value" else
  let digest := messageHash addr nonce q rarities
  .ok (rarities ++ signatureBytes key digest)

/-- src/index.js:72-176 — one request through `app.post('/api/sign', rateLimiter, …)`:
the `rateLimiter` middleware runs first and unconditionally updates
`requestCounts`; the handler then validates address, quantity and nonce
(src/index.js:82-95), rejects an already-used nonce hash (src/index.js:97-101),
rejects a missing key (src/index.js:103-107), runs the throwing region under
the `catch` of src/index.js:172-175, and on success commits the nonce hash
with eviction (src/index.js:158-164) and returns the signature with the echoed
nonce. -/
def handleSign (env : Env) (st : ServerState) (req : SignRequest) (now : ℕ)
    (draws : ℕ → ℚ) : SignResponse × ServerState :=
  let rl := rateLimiterStep st.requestCounts req.ip now
  let st1 : ServerState := ⟨st.usedNonces, rl.2⟩
  if rl.1 = false then
    (.rateLimited "Rate limit exceeded. Try again later.", st1)
  else if addressValid req.address = false then
    (.badRequest "Invalid address", st1)
  else if quantityValid req.quantity = false then
    (.badRequest "Invalid quantity. Must be between 1 and 10.", st1)
  else if nonceValid req.nonce = false then
    (.badRequest "Invalid nonce format", st1)
  else
    let nstr := req.nonce.getStr
    let h := nonceHash nstr
    if h ∈ st.usedNonces then
      (.badRequest "Nonce already used", st1)
    else
      match env.signerPrivateKey with
      | none => (.serverError "Server configuration error", st1)
      | some key =>
          match tryGenerate key req.address.getStr req.quantity.getNum nstr draws with
          | .error msg =>
              (.serverError ("Failed to generate signature: " ++ msg), st1)
          | .ok sig =>
              (.ok sig nstr, ⟨commitNonce st.usedNonces h, rl.2⟩)

/-! Concrete inputs used by witnesses and counterexamples. -/

/-- A well-formed 20-byte address string. -/
def addrA : String := "0xaaaaaaaaaaaaaaaaaaaaaaaaaaaaaaaaaaaaaaaa"

/-- A well-formed 32-byte nonce string. -/
def nonceA : String :=
  "0x1111111111111111111111111111111111111111111111111111111111111111"

/-- A well-formed private key string. -/
def keyA : String :=
  "0x123456789abcdef123456789abcdef123456789abcdef123456789abcdef1234"

/-- An environment holding the well-formed key. -/
def envA : Env := ⟨some keyA⟩

/-- The empty initial server state. -/
def st0 : ServerState := ⟨[], []⟩

/-- A constant all-zero draw stream. -/
def draws0 : ℕ → ℚ := fun _ => 0

/-- A well-formed request carrying `nonceA` from client `"ipA"`. -/
def reqA : SignRequest := ⟨.str addrA, .num 1, .str nonceA, "ipA"⟩

example : (handleSign envA st0 reqA 0 draws0).1.isOk = true := by decide
example :
    nonceHash nonceA ∈ (handleSign envA st0 reqA 0 draws0).2.usedNonces := by
  decide
example :
    (handleSign envA (handleSign envA st0 reqA 0 draws0).2 reqA 1 draws0).1
      = .badRequest "Nonce already used" := by decide

/-! ## Helper lemmas -/

lemma lookupCount_setCount_self (rc : RequestCounts) (ip : String)
    (e : RateEntry) : lookupCount (setCount rc ip e) ip = some e := by
  induction rc with
  | nil => simp [setCount, lookupCount]
  | cons kv rest ih =>
      obtain ⟨k, v⟩ := kv
      by_cases hk : k = ip
      · simp [setCount, hk, lookupCount]
      · simp [setCount, hk, lookupCount, ih]

lemma mem_setAdd_self (l : List String) (h : String) : h ∈ setAdd l h := by
  unfold setAdd
  split
  · assumption
  · simp

lemma mem_commitNonce_self (l : List String) (h : String) (hnotin : h ∉ l) :
    h ∈ commitNonce l h := by
  unfold commitNonce setAdd
  simp only [hnotin, if_false]
  split
  · rename_i hlen
    have hlen' : EVICTION_BATCH ≤ l.length := by
      have := List.length_append l [h]
      simp only [List.length_cons, List.length_nil] at this
      unfold NONCE_CEILING at hlen
      unfold EVICTION_BATCH
      omega
    rw [List.drop_append_of_le_length hlen']
    simp
  · simp

lemma commitNonce_length_le (l : List String) (h : String)
    (hl : l.length ≤ NONCE_CEILING) :
    (commitNonce l h).length ≤ NONCE_CEILING := by
  unfold commitNonce setAdd
  dsimp only
  split
  · split
    · simp only [List.length_drop]; omega
    · omega
  · rename_i hnotin
    split
    · rename_i hlen
      simp only [List.length_drop, List.length_append, List.length_cons,
        List.length_nil] at *
      unfold NONCE_CEILING EVICTION_BATCH at *
      omega
    · rename_i hlen
      simp only [List.length_append, List.length_cons, List.length_nil] at *
      omega

lemma commitNonce_usedNonces_eq (l : List String) (h : String) :
    commitNonce l h = l ∨ commitNonce l h = setAdd l h
      ∨ commitNonce l h = (setAdd l h).drop EVICTION_BATCH := by
  unfold commitNonce
  dsimp only
  split
  · right; right; rfl
  · right; left; rfl

section HandlerBranches

variable (env : Env) (st : ServerState) (req : SignRequest) (now : ℕ)
  (draws : ℕ → ℚ)

lemma handleSign_requestCounts :
    (handleSign env st req now draws).2.requestCounts
      = (rateLimiterStep st.requestCounts req.ip now).2 := by
  unfold handleSign
  dsimp only
  repeat' split
  all_goals rfl

lemma handleSign_rateLimited
    (hrl : (rateLimiterStep st.requestCounts req.ip now).1 = false) :
    handleSign env st req now draws
      = (.rateLimited "Rate limit exceeded. Try again later.",
         ⟨st.usedNonces, (rateLimiterStep st.requestCounts req.ip now).2⟩) := by
  unfold handleSign
  dsimp only
  simp [hrl]

lemma handleSign_invalidAddress
    (hrl : (rateLimiterStep st.requestCounts req.ip now).1 = true)
    (haddr : addressValid req.address = false) :
    handleSign env st req now draws
      = (.badRequest "Invalid address",
         ⟨st.usedNonces, (rateLimiterStep st.requestCounts req.ip now).2⟩) := by
  unfold handleSign
  dsimp only
  simp [hrl, haddr]

lemma handleSign_invalidQuantity
    (hrl : (rateLimiterStep st.requestCounts req.ip now).1 = true)
    (haddr : addressValid req.address = true)
    (hq : quantityValid req.quantity = false) :
    handleSign env st req now draws
      = (.badRequest "Invalid quantity. Must be between 1 and 10.",
         ⟨st.usedNonces, (rateLimiterStep st.requestCounts req.ip now).2⟩) := by
  unfold handleSign
  dsimp only
  simp [hrl, haddr, hq]

lemma handleSign_invalidNonce
    (hrl : (rateLimiterStep st.requestCounts req.ip now).1 = true)
    (haddr : addressValid req.address = true)
    (hq : quantityValid req.quantity = true)
    (hn : nonceValid req.nonce = false) :
    handleSign env st req now draws
      = (.badRequest "Invalid nonce format",
         ⟨st.usedNonces, (rateLimiterStep st.requestCounts req.ip now).2⟩) := by
  unfold handleSign
  dsimp only
  simp [hrl, haddr, hq, hn]

lemma handleSign_replay
    (hrl : (rateLimiterStep st.requestCounts req.ip now).1 = true)
    (haddr : addressValid req.address = true)
    (hq : quantityValid req.quantity = true)
    (hn : nonceValid req.nonce = true)
    (hmem : nonceHash req.nonce.getStr ∈ st.usedNonces) :
    handleSign env st req now draws
      = (.badRequest "Nonce already used",
         ⟨st.usedNonces, (rateLimiterStep st.requestCounts req.ip now).2⟩) := by
  unfold handleSign
  dsimp only
  simp [hrl, haddr, hq, hn, hmem]

lemma handleSign_noKey
    (hrl : (rateLimiterStep st.requestCounts req.ip now).1 = true)
    (haddr : addressValid req.address = true)
    (hq : quantityValid req.quantity = true)
    (hn : nonceValid req.nonce = true)
    (hmem : nonceHash req.nonce.getStr ∉ st.usedNonces)
    (henv : env.signerPrivateKey = none) :
    handleSign env st req now draws
      = (.serverError "Server configuration error",
         ⟨st.usedNonces, (rateLimiterStep st.requestCounts req.ip now).2⟩) := by
  unfold handleSign
  dsimp only
  simp [hrl, haddr, hq, hn, hmem, henv]

lemma handleSign_tryError (key msg : String)
    (hrl : (rateLimiterStep st.requestCounts req.ip now).1 = true)
    (haddr : addressValid req.address = true)
    (hq : quantityValid req.quantity = true)
    (hn : nonceValid req.nonce = true)
    (hmem : nonceHash req.nonce.getStr ∉ st.usedNonces)
    (henv : env.signerPrivateKey = some key)
    (htg : tryGenerate key req.address.getStr req.quantity.getNum
        req.nonce.getStr draws = .error msg) :
    handleSign env st req now draws
      = (.serverError ("Failed to generate signature: " ++ msg),
         ⟨st.usedNonces, (rateLimiterStep st.requestCounts req.ip now).2⟩) := by
  unfold handleSign
  dsimp only
  simp [hrl, haddr, hq, hn, hmem, henv, htg]

lemma handleSign_tryOk (key : String) (sig : List ℕ)
    (hrl : (rateLimiterStep st.requestCounts req.ip now).1 = true)
    (haddr : addressValid req.address = true)
    (hq : quantityValid req.quantity = true)
    (hn : nonceValid req.nonce = true)
    (hmem : nonceHash req.nonce.getStr ∉ st.usedNonces)
    (henv : env.signerPrivateKey = some key)
    (htg : tryGenerate key req.address.getStr req.quantity.getNum
        req.nonce.getStr draws = .ok sig) :
    handleSign env st req now draws
      = (.ok sig req.nonce.getStr,
         ⟨commitNonce st.usedNonces (nonceHash req.nonce.getStr),
          (rateLimiterStep st.requestCounts req.ip now).2⟩) := by
  unfold handleSign
  dsimp only
  simp [hrl, haddr, hq, hn, hmem, henv, htg]

/-- A successful response pins down every guard the request passed and the
shape of the next state. -/
lemma handleSign_ok_inv
    (hok : (handleSign env st req now draws).1.isOk = true) :
    (rateLimiterStep st.requestCounts req.ip now).1 = true ∧
    addressValid req.address = true ∧
    quantityValid req.quantity = true ∧
    nonceValid req.nonce = true ∧
    nonceHash req.nonce.getStr ∉ st.usedNonces ∧
    (handleSign env st req now draws).2.usedNonces
      = commitNonce st.usedNonces (nonceHash req.nonce.getStr) := by
  by_cases hrl : (rateLimiterStep st.requestCounts req.ip now).1 = true
  case neg =>
    rw [handleSign_rateLimited env st req now draws
      (Bool.not_eq_true _ ▸ hrl)] at hok
    simp [SignResponse.isOk] at hok
  case pos =>
  by_cases haddr : addressValid req.address = true
  case neg =>
    rw [handleSign_invalidAddress env st req now draws hrl
      (Bool.not_eq_true _ ▸ haddr)] at hok
    simp [SignResponse.isOk] at hok
  case pos =>
  by_cases hq : quantityValid req.quantity = true
  case neg =>
    rw [handleSign_invalidQuantity env st req now draws hrl haddr
      (Bool.not_eq_true _ ▸ hq)] at hok
    simp [SignResponse.isOk] at hok
  case pos =>
  by_cases hn : nonceValid req.nonce = true
  case neg =>
    rw [handleSign_invalidNonce env st req now draws hrl haddr hq
      (Bool.not_eq_true _ ▸ hn)] at hok
    simp [SignResponse.isOk] at hok
  case pos =>
  by_cases hmem : nonceHash req.nonce.getStr ∈ st.usedNonces
  case pos =>
    rw [handleSign_replay env st req now draws hrl haddr hq hn hmem] at hok
    simp [SignResponse.isOk] at hok
  case neg =>
  refine ⟨hrl, haddr, hq, hn, hmem, ?_⟩
  match henv : env.signerPrivateKey with
  | none =>
      rw [handleSign_noKey env st req now draws hrl haddr hq hn hmem henv]
        at hok
      simp [SignResponse.isOk] at hok
  | some key =>
      match htg : tryGenerate key req.address.getStr req.quantity.getNum
          req.nonce.getStr draws with
      | .error msg =>
          rw [handleSign_tryError env st req now draws key msg hrl haddr hq hn
            hmem henv htg] at hok
          simp [SignResponse.isOk] at hok
      | .ok sig =>
          rw [handleSign_tryOk env st req now draws key sig hrl haddr hq hn
            hmem henv htg]

end HandlerBranches

lemma effectiveEntry_within (rc : RequestCounts) (ip : String) (now : ℕ)
    (e : RateEntry) (hl : lookupCount rc ip = some e)
    (hw : now - e.timestamp ≤ RATE_LIMIT_WINDOW) :
    effectiveEntry rc ip now = e := by
  unfold effectiveEntry
  rw [hl]
  dsimp only
  rw [if_neg]
  omega

lemma rateLimiterStep_within (rc : RequestCounts) (ip : String) (now : ℕ)
    (e : RateEntry) (hl : lookupCount rc ip = some e)
    (hw : now - e.timestamp ≤ RATE_LIMIT_WINDOW) :
    rateLimiterStep rc ip now
      = (decide (e.count + 1 ≤ MAX_REQUESTS_PER_WINDOW),
         setCount rc ip ⟨e.count + 1, e.timestamp⟩) := by
  unfold rateLimiterStep
  rw [effectiveEntry_within rc ip now e hl hw]

lemma rateLimiterStep_reset (rc : RequestCounts) (ip : String) (now : ℕ)
    (e : RateEntry) (hl : lookupCount rc ip = some e)
    (hw : RATE_LIMIT_WINDOW < now - e.timestamp) :
    rateLimiterStep rc ip now = (true, setCount rc ip ⟨1, now⟩) := by
  unfold rateLimiterStep effectiveEntry
  rw [hl]
  dsimp only
  rw [if_pos hw]
  simp [MAX_REQUESTS_PER_WINDOW]

lemma rateLimiterStep_fresh (rc : RequestCounts) (ip : String) (now : ℕ)
    (hl : lookupCount rc ip = none) :
    rateLimiterStep rc ip now = (true, setCount rc ip ⟨1, now⟩) := by
  unfold rateLimiterStep effectiveEntry
  rw [hl]
  dsimp only
  rw [if_neg (by omega)]
  simp [MAX_REQUESTS_PER_WINDOW]

lemma runRequests_within (ip : String) (t0 : ℕ) :
    ∀ (ts : List ℕ) (rc : RequestCounts) (c : ℕ),
      lookupCount rc ip = some ⟨c, t0⟩ →
      (∀ t ∈ ts, t - t0 ≤ RATE_LIMIT_WINDOW) →
      (runRequests rc ip ts).1
          = (List.range ts.length).map
              (fun k => decide (c + k + 1 ≤ MAX_REQUESTS_PER_WINDOW))
        ∧ lookupCount (runRequests rc ip ts).2 ip = some ⟨c + ts.length, t0⟩ := by
  intro ts
  induction ts with
  | nil => intro rc c hl _; simpa [runRequests] using hl
  | cons t ts ih =>
      intro rc c hl hw
      have hstep := rateLimiterStep_within rc ip t ⟨c, t0⟩ hl
        (hw t (List.mem_cons_self t ts))
      have hrest := ih (setCount rc ip ⟨c + 1, t0⟩) (c + 1)
        (lookupCount_setCount_self rc ip ⟨c + 1, t0⟩)
        (fun u hu => hw u (List.mem_cons_of_mem t hu))
      constructor
      · show (rateLimiterStep rc ip t).1 ::
            (runRequests (rateLimiterStep rc ip t).2 ip ts).1 = _
        rw [hstep]
        dsimp only
        rw [hrest.1, List.length_cons, List.range_succ_eq_map, List.map_cons,
          List.map_map]
        have harith : ∀ k : ℕ, c + 1 + k + 1 = c + (k + 1) + 1 := by omega
        simp [Function.comp_def, harith]
      · show lookupCount (runRequests (rateLimiterStep rc ip t).2 ip ts).2 ip = _
        rw [hstep]
        dsimp only
        rw [hrest.2]
        have harith : c + 1 + ts.length = c + (ts.length + 1) := by omega
        rw [harith, List.length_cons]

/-- Every non-200 outcome leaves `usedNonces` untouched: only the success
branch of the handler writes to it. -/
lemma handleSign_not_ok_frame (env : Env) (st : ServerState)
    (req : SignRequest) (now : ℕ) (draws : ℕ → ℚ)
    (herr : (handleSign env st req now draws).1.isOk = false) :
    (handleSign env st req now draws).2.usedNonces = st.usedNonces := by
  by_cases hrl : (rateLimiterStep st.requestCounts req.ip now).1 = true
  case neg =>
    rw [handleSign_rateLimited env st req now draws (Bool.not_eq_true _ ▸ hrl)]
  case pos =>
  by_cases haddr : addressValid req.address = true
  case neg =>
    rw [handleSign_invalidAddress env st req now draws hrl
      (Bool.not_eq_true _ ▸ haddr)]
  case pos =>
  by_cases hq : quantityValid req.quantity = true
  case neg =>
    rw [handleSign_invalidQuantity env st req now draws hrl haddr
      (Bool.not_eq_true _ ▸ hq)]
  case pos =>
  by_cases hn : nonceValid req.nonce = true
  case neg =>
    rw [handleSign_invalidNonce env st req now draws hrl haddr hq
      (Bool.not_eq_true _ ▸ hn)]
  case pos =>
  by_cases hmem : nonceHash req.nonce.getStr ∈ st.usedNonces
  case pos =>
    rw [handleSign_replay env st req now draws hrl haddr hq hn hmem]
  case neg =>
  match henv : env.signerPrivateKey with
  | none => rw [handleSign_noKey env st req now draws hrl haddr hq hn hmem henv]
  | some key =>
      match htg : tryGenerate key req.address.getStr req.quantity.getNum
          req.nonce.getStr draws with
      | .error msg =>
          rw [handleSign_tryError env st req now draws key msg hrl haddr hq hn
            hmem henv htg]
      | .ok sig =>
          rw [handleSign_tryOk env st req now draws key sig hrl haddr hq hn
            hmem henv htg] at herr
          simp [SignResponse.isOk] at herr

/-! ## Claims -/

/-- C2: for every request that ends in any error outcome (invalid input,
replay, rate limit, missing key, or signing failure), the nonce registry is
unchanged — the request's nonce is not committed, so the caller can retry with
the same nonce. -/
theorem error_outcome_leaves_nonces_unchanged (env : Env) (st : ServerState)
    (req : SignRequest) (now : ℕ) (draws : ℕ → ℚ)
    (herr : (handleSign env st req now draws).1.isOk = false) :
    (handleSign env st req now draws).2.usedNonces = st.usedNonces :=
  handleSign_not_ok_frame env st req now draws herr

/-- Witness for C2 at a concrete malformed request: the response is an error
and the registry stays empty. -/
theorem error_outcome_leaves_nonces_unchanged_witness :
    (handleSign envA st0 ⟨.str "not-an-address", .num 1, .str nonceA, "ipA"⟩
        0 draws0).2.usedNonces = st0.usedNonces :=
  error_outcome_leaves_nonces_unchanged envA st0
    ⟨.str "not-an-address", .num 1, .str nonceA, "ipA"⟩ 0 draws0 (by decide)

/-- C3 counterexample: the non-integer quantity `5/2` passes the source's
validation test at src/index.js:87, which checks `isNaN`, sign and upper bound
but never integrality — refuting "input validation rejects every quantity that
is … non-integer". -/
theorem quantity_noninteger_accepted :
    (mkRat 5 2).den ≠ 1 ∧ quantityValid (.num (mkRat 5 2)) = true := by
  decide

/-- C3 amended: the validation test accepts exactly the numeric quantities `q`
with `0 < q ≤ 10` — so `0`, negatives, `NaN`, missing values and values above
`10` are rejected and the boundaries `1` and `10` accepted, but non-integer
rationals in `(0, 10]` pass as well. -/
theorem quantity_validation_range (v : QuantityVal) :
    quantityValid v = true ↔ ∃ q : ℚ, v = .num q ∧ 0 < q ∧ q ≤ 10 := by
  cases v with
  | undef => simp [quantityValid]
  | nan => simp [quantityValid]
  | num q => simp [quantityValid, and_assoc]

/-- Witness for C3 (amended) at the boundary values: `1` and `10` are
accepted. -/
theorem quantity_validation_range_witness :
    quantityValid (.num 1) = true ∧ quantityValid (.num 10) = true :=
  ⟨(quantity_validation_range (.num 1)).mpr ⟨1, rfl, by norm_num, by norm_num⟩,
   (quantity_validation_range (.num 10)).mpr
     ⟨10, rfl, by norm_num, by norm_num⟩⟩

/-- C6: for a client with no counter, every request in the window opened by
its first request is admitted while the incremented count stays within
`MAX_REQUESTS_PER_WINDOW` — so requests 1–10 are admitted and the 11th in the
same window is rejected — and once the window has elapsed the counter resets
to 1 and the request is admitted again. -/
theorem rateLimiter_window_behavior :
    (∀ (rc : RequestCounts) (ip : String) (t0 : ℕ) (ts : List ℕ),
        lookupCount rc ip = none →
        (∀ t ∈ ts, t - t0 ≤ RATE_LIMIT_WINDOW) →
        (runRequests rc ip (t0 :: ts)).1
          = (List.range (ts.length + 1)).map
              (fun k => decide (k + 1 ≤ MAX_REQUESTS_PER_WINDOW))) ∧
    (∀ (rc : RequestCounts) (ip : String) (now : ℕ) (e : RateEntry),
        lookupCount rc ip = some e →
        RATE_LIMIT_WINDOW < now - e.timestamp →
        rateLimiterStep rc ip now = (true, setCount rc ip ⟨1, now⟩)) := by
  constructor
  · intro rc ip t0 ts hl hw
    have hstep := rateLimiterStep_fresh rc ip t0 hl
    have hrest := runRequests_within ip t0 ts (setCount rc ip ⟨1, t0⟩) 1
      (lookupCount_setCount_self rc ip ⟨1, t0⟩) hw
    show (rateLimiterStep rc ip t0).1 ::
        (runRequests (rateLimiterStep rc ip t0).2 ip ts).1 = _
    rw [hstep]
    dsimp only
    rw [hrest.1, List.range_succ_eq_map, List.map_cons, List.map_map]
    have harith : ∀ k : ℕ, 1 + k + 1 = k + 1 + 1 := by omega
    simp [Function.comp_def, harith, MAX_REQUESTS_PER_WINDOW]
  · exact rateLimiterStep_reset

/-- Witness for C6: eleven same-window requests from a fresh client give ten
admissions then a rejection, and a request after the window resets the
counter. -/
theorem rateLimiter_window_behavior_witness :
    (runRequests [] "a" (0 :: [1, 2, 3, 4, 5, 6, 7, 8, 9, 10])).1
        = (List.range 11).map (fun k => decide (k + 1 ≤ MAX_REQUESTS_PER_WINDOW))
      ∧ rateLimiterStep [("a", ⟨10, 0⟩)] "a" 60001
        = (true, setCount [("a", ⟨10, 0⟩)] "a" ⟨1, 60001⟩) :=
  ⟨rateLimiter_window_behavior.1 [] "a" 0 [1, 2, 3, 4, 5, 6, 7, 8, 9, 10]
      rfl (by decide),
   rateLimiter_window_behavior.2 [("a", ⟨10, 0⟩)] "a" 60001 ⟨10, 0⟩
      rfl (by decide)⟩

/-- C7: when a commit pushes the registry past `NONCE_CEILING`, exactly the
batch of the `EVICTION_BATCH` oldest-inserted entries is evicted, bringing the
size back under the ceiling; consequently a registry at or under the ceiling
stays at or under it across any request, so it never grows unboundedly. -/
theorem nonce_registry_bounded :
    (∀ (l : List String) (h : String), l.length ≤ NONCE_CEILING →
        (setAdd l h).length > NONCE_CEILING →
        commitNonce l h = (setAdd l h).drop EVICTION_BATCH ∧
        (commitNonce l h).length < NONCE_CEILING) ∧
    (∀ (env : Env) (st : ServerState) (req : SignRequest) (now : ℕ)
        (draws : ℕ → ℚ), st.usedNonces.length ≤ NONCE_CEILING →
        (handleSign env st req now draws).2.usedNonces.length ≤ NONCE_CEILING) := by
  constructor
  · intro l h hle hgt
    have hsetlen : (setAdd l h).length ≤ l.length + 1 := by
      unfold setAdd
      split
      · omega
      · simp
    have heq : commitNonce l h = (setAdd l h).drop EVICTION_BATCH := by
      unfold commitNonce
      dsimp only
      rw [if_pos hgt]
    refine ⟨heq, ?_⟩
    rw [heq, List.length_drop]
    unfold NONCE_CEILING EVICTION_BATCH at *
    omega
  · intro env st req now draws hle
    by_cases hok : (handleSign env st req now draws).1.isOk = true
    · rw [(handleSign_ok_inv env st req now draws hok).2.2.2.2.2]
      exact commitNonce_length_le st.usedNonces _ hle
    · rw [handleSign_not_ok_frame env st req now draws
        (Bool.not_eq_true _ ▸ hok)]
      exact hle

/-- Witness for C7: a full registry of 1000 entries evicts down to 901 on the
next commit, and a concrete request keeps an empty registry under the
ceiling. -/
theorem nonce_registry_bounded_witness :
    (commitNonce (List.replicate 1000 "a") "b"
        = (setAdd (List.replicate 1000 "a") "b").drop EVICTION_BATCH ∧
      (commitNonce (List.replicate 1000 "a") "b").length < NONCE_CEILING) ∧
    (handleSign envA st0 reqA 0 draws0).2.usedNonces.length ≤ NONCE_CEILING :=
  have hb : "b" ∉ List.replicate 1000 "a" := by
    intro hmem
    rw [List.mem_replicate] at hmem
    exact absurd hmem.2 (by decide)
  ⟨nonce_registry_bounded.1 (List.replicate 1000 "a") "b"
      (by rw [List.length_replicate]; norm_num [NONCE_CEILING])
      (by
        unfold setAdd
        rw [if_neg hb, List.length_append, List.length_replicate]
        norm_num [NONCE_CEILING]),
   nonce_registry_bounded.2 envA st0 reqA 0 draws0 (by decide)⟩

/-- C10: every inbound signing request increments the client's rate-limit
counter before any other processing — the updated counter is in the final
state whatever the outcome, so requests that fail validation, the replay
check, or signing still consume budget, and once the incremented count
exceeds `MAX_REQUESTS_PER_WINDOW` the request is rejected as rate-limited. -/
theorem every_request_consumes_rate_budget (env : Env) (st : ServerState)
    (req : SignRequest) (now : ℕ) (draws : ℕ → ℚ) :
    lookupCount (handleSign env st req now draws).2.requestCounts req.ip
        = some ⟨(effectiveEntry st.requestCounts req.ip now).count + 1,
                (effectiveEntry st.requestCounts req.ip now).timestamp⟩
    ∧ (MAX_REQUESTS_PER_WINDOW
          < (effectiveEntry st.requestCounts req.ip now).count + 1 →
        (handleSign env st req now draws).1
          = .rateLimited "Rate limit exceeded. Try again later.") := by
  constructor
  · rw [handleSign_requestCounts]
    unfold rateLimiterStep
    dsimp only
    exact lookupCount_setCount_self st.requestCounts req.ip _
  · intro hover
    have hrl : (rateLimiterStep st.requestCounts req.ip now).1 = false := by
      unfold rateLimiterStep
      dsimp only
      simp
      omega
    rw [handleSign_rateLimited env st req now draws hrl]

/-- Witness for C10: a malformed request from a client at count 10 still
increments the counter to 11 and is itself rejected as rate-limited. -/
theorem every_request_consumes_rate_budget_witness :
    lookupCount (handleSign envA ⟨[], [("c", ⟨10, 0⟩)]⟩
        ⟨.str "not-an-address", .undef, .undef, "c"⟩ 0 draws0).2.requestCounts
        "c" = some ⟨11, 0⟩
    ∧ (handleSign envA ⟨[], [("c", ⟨10, 0⟩)]⟩
        ⟨.str "not-an-address", .undef, .undef, "c"⟩ 0 draws0).1
        = .rateLimited "Rate limit exceeded. Try again later." :=
  have h := every_request_consumes_rate_budget envA ⟨[], [("c", ⟨10, 0⟩)]⟩
    ⟨.str "not-an-address", .undef, .undef, "c"⟩ 0 draws0
  ⟨h.1, h.2 (by decide)⟩

/-- C9 counterexample: with client `"ipX"` already at 10 requests in the
current window, a request with a malformed address is rejected by the rate
limiter and still counted — it is not rejected as a validation error, so
input validation is not performed before the rate limiter is consulted. -/
theorem malformed_request_hits_rate_limiter_first :
    addressValid (.str "not-an-address") = false
    ∧ (handleSign envA ⟨[], [("ipX", ⟨10, 0⟩)]⟩
        ⟨.str "not-an-address", .num 1, .str nonceA, "ipX"⟩ 0 draws0).1
        = .rateLimited "Rate limit exceeded. Try again later."
    ∧ (handleSign envA ⟨[], [("ipX", ⟨10, 0⟩)]⟩
        ⟨.str "not-an-address", .num 1, .str nonceA, "ipX"⟩ 0 draws0).1
        ≠ .badRequest "Invalid address"
    ∧ lookupCount (handleSign envA ⟨[], [("ipX", ⟨10, 0⟩)]⟩
        ⟨.str "not-an-address", .num 1, .str nonceA, "ipX"⟩ 0
        draws0).2.requestCounts "ipX" = some ⟨11, 0⟩ := by
  decide

/-- C9 amended: the `rateLimiter` middleware runs before input validation for
every inbound signing request: the counter update always lands in the final
state, an over-budget request is rejected as rate-limited even when
malformed, and a malformed-address request is rejected as a validation error
only when the limiter admits it. -/
theorem rate_limiter_consulted_before_validation (env : Env)
    (st : ServerState) (req : SignRequest) (now : ℕ) (draws : ℕ → ℚ) :
    (handleSign env st req now draws).2.requestCounts
        = (rateLimiterStep st.requestCounts req.ip now).2
    ∧ ((rateLimiterStep st.requestCounts req.ip now).1 = false →
        (handleSign env st req now draws).1
          = .rateLimited "Rate limit exceeded. Try again later.")
    ∧ ((rateLimiterStep st.requestCounts req.ip now).1 = true →
        addressValid req.address = false →
        (handleSign env st req now draws).1 = .badRequest "Invalid address") := by
  refine ⟨handleSign_requestCounts env st req now draws, ?_, ?_⟩
  · intro hrl
    rw [handleSign_rateLimited env st req now draws hrl]
  · intro hrl haddr
    rw [handleSign_invalidAddress env st req now draws hrl haddr]

/-- Witness for C9 (amended): an over-budget malformed request is
rate-limited; the same malformed request under budget gets the validation
error. -/
theorem rate_limiter_consulted_before_validation_witness :
    (handleSign envA ⟨[], [("w", ⟨10, 0⟩)]⟩
        ⟨.str "not-an-address", .num 1, .str nonceA, "w"⟩ 0 draws0).1
        = .rateLimited "Rate limit exceeded. Try again later."
    ∧ (handleSign envA st0
        ⟨.str "not-an-address", .num 1, .str nonceA, "w"⟩ 0 draws0).1
        = .badRequest "Invalid address" :=
  ⟨(rate_limiter_consulted_before_validation envA ⟨[], [("w", ⟨10, 0⟩)]⟩
      ⟨.str "not-an-address", .num 1, .str nonceA, "w"⟩ 0 draws0).2.1
      (by decide),
   (rate_limiter_consulted_before_validation envA st0
      ⟨.str "not-an-address", .num 1, .str nonceA, "w"⟩ 0 draws0).2.2
      (by decide) (by decide)⟩

/-- C1 counterexample: after a first success with `nonceA`, a later request
carrying the same nonce but a malformed address is rejected with
"Invalid address", not with "Nonce already used", even though the nonce's
record is still in the registry — so not *every* later request with the same
nonce is rejected with the "nonce already used" error. -/
theorem replay_error_not_universal :
    (handleSign envA st0 reqA 0 draws0).1.isOk = true
    ∧ nonceHash nonceA ∈ (handleSign envA st0 reqA 0 draws0).2.usedNonces
    ∧ (handleSign envA (handleSign envA st0 reqA 0 draws0).2
        ⟨.str "not-an-address", .num 1, .str nonceA, "ipB"⟩ 0 draws0).1
        = .badRequest "Invalid address" := by
  decide

/-- C1 amended: after a first signing request with nonce N succeeds, N's hash
is in the registry, and as long as it has not been evicted every later request
carrying N produces no signature and leaves the registry unchanged; the
rejection carries the "Nonce already used" error whenever the request is
admitted by the rate limiter and passes input validation (a request failing
one of those earlier guards is rejected with that guard's own error
instead). -/
theorem nonce_replay_protection (env : Env) (st : ServerState)
    (req : SignRequest) (now : ℕ) (draws : ℕ → ℚ) (n : String)
    (hn : req.nonce = .str n)
    (hok : (handleSign env st req now draws).1.isOk = true) :
    nonceHash n ∈ (handleSign env st req now draws).2.usedNonces
    ∧ ∀ (env2 : Env) (st2 : ServerState) (req2 : SignRequest) (now2 : ℕ)
        (draws2 : ℕ → ℚ),
        req2.nonce = .str n →
        nonceHash n ∈ st2.usedNonces →
        (handleSign env2 st2 req2 now2 draws2).1.isOk = false
        ∧ (handleSign env2 st2 req2 now2 draws2).2.usedNonces = st2.usedNonces
        ∧ ((rateLimiterStep st2.requestCounts req2.ip now2).1 = true →
            addressValid req2.address = true →
            quantityValid req2.quantity = true →
            nonceValid req2.nonce = true →
            (handleSign env2 st2 req2 now2 draws2).1
              = .badRequest "Nonce already used") := by
  obtain ⟨-, -, -, -, hmem, hstate⟩ := handleSign_ok_inv env st req now draws hok
  rw [hn] at hmem hstate
  constructor
  · rw [hstate]
    exact mem_commitNonce_self st.usedNonces (nonceHash n) hmem
  · intro env2 st2 req2 now2 draws2 hn2 hmem2
    have hget2 : req2.nonce.getStr = n := by rw [hn2]; rfl
    have hnotok : (handleSign env2 st2 req2 now2 draws2).1.isOk = false := by
      by_contra hcon
      obtain ⟨-, -, -, -, habs, -⟩ := handleSign_ok_inv env2 st2 req2 now2
        draws2 (Bool.not_eq_false _ ▸ hcon)
      rw [hget2] at habs
      exact habs hmem2
    refine ⟨hnotok, handleSign_not_ok_frame env2 st2 req2 now2 draws2 hnotok,
      ?_⟩
    intro hrl2 haddr2 hq2 hnv2
    rw [handleSign_replay env2 st2 req2 now2 draws2 hrl2 haddr2 hq2 hnv2
      (hget2 ▸ hmem2)]

/-- Witness for C1 (amended): after a success with `nonceA`, a well-formed
second request carrying `nonceA` from another client is rejected with
"Nonce already used" and gets no signature. -/
theorem nonce_replay_protection_witness :
    nonceHash nonceA ∈ (handleSign envA st0 reqA 0 draws0).2.usedNonces
    ∧ (handleSign envA (handleSign envA st0 reqA 0 draws0).2
        ⟨.str addrA, .num 1, .str nonceA, "ipB"⟩ 1 draws0).1.isOk = false
    ∧ (handleSign envA (handleSign envA st0 reqA 0 draws0).2
        ⟨.str addrA, .num 1, .str nonceA, "ipB"⟩ 1 draws0).1
        = .badRequest "Nonce already used" :=
  have h := nonce_replay_protection envA st0 reqA 0 draws0 nonceA rfl
    (by decide)
  have h2 := h.2 envA (handleSign envA st0 reqA 0 draws0).2
    ⟨.str addrA, .num 1, .str nonceA, "ipB"⟩ 1 draws0 rfl h.1
  ⟨h.1, h2.1, h2.2.2 (by decide) (by decide) (by decide) (by decide)⟩

/-- C4 counterexample: `"0x12"` is not a 0x-prefixed 32-byte hex string, yet
it passes the source's nonce validation (only the `"0x"` head is tested); the
request is not rejected as "Invalid nonce format" but fails later inside the
signing try block with a generic 500. -/
theorem short_nonce_passes_validation :
    isBytes32Hex "0x12" = false
    ∧ nonceValid (.str "0x12") = true
    ∧ (handleSign envA st0 ⟨.str addrA, .num 1, .str "0x12", "ip4"⟩ 0
        draws0).1
        = .serverError "Failed to generate signature: invalid BytesLike value"
    ∧ (handleSign envA st0 ⟨.str addrA, .num 1, .str "0x12", "ip4"⟩ 0
        draws0).1 ≠ .badRequest "Invalid nonce format" := by
  decide

/-- C4 amended: a request whose nonce is missing, not a string, or not
`"0x"`-prefixed is rejected as "Invalid nonce format" with the nonce registry
unchanged (given it passed the earlier guards); a `"0x"`-prefixed nonce that
is not a well-formed 32-byte hex string passes validation instead and — with
a valid key and an unused nonce — is rejected by the packing step inside the
try block as a generic 500, also leaving the registry unchanged. -/
theorem nonce_format_handling (env : Env) (st : ServerState)
    (req : SignRequest) (now : ℕ) (draws : ℕ → ℚ)
    (hrl : (rateLimiterStep st.requestCounts req.ip now).1 = true)
    (haddr : addressValid req.address = true)
    (hq : quantityValid req.quantity = true) :
    (nonceValid req.nonce = false →
      handleSign env st req now draws
        = (.badRequest "Invalid nonce format",
           ⟨st.usedNonces, (rateLimiterStep st.requestCounts req.ip now).2⟩))
    ∧ (∀ (s key : String), req.nonce = .str s → strStarts s "0x" = true →
        isBytes32Hex s = false →
        env.signerPrivateKey = some key → isPrivateKey key = true →
        nonceHash s ∉ st.usedNonces →
        handleSign env st req now draws
          = (.serverError "Failed to generate signature: invalid BytesLike value",
             ⟨st.usedNonces,
              (rateLimiterStep st.requestCounts req.ip now).2⟩)) := by
  constructor
  · intro hn
    exact handleSign_invalidNonce env st req now draws hrl haddr hq hn
  · intro s key hns hpre hbytes henv hkey hmem
    have hget : req.nonce.getStr = s := by rw [hns]; rfl
    have hn : nonceValid req.nonce = true := by
      rw [hns]
      simpa [nonceValid] using hpre
    have htg : tryGenerate key req.address.getStr req.quantity.getNum
        req.nonce.getStr draws = .error "invalid BytesLike value" := by
      rw [hget]
      unfold tryGenerate
      rw [hkey]
      dsimp only
      rw [hbytes]
      rfl
    rw [handleSign_tryError env st req now draws key "invalid BytesLike value"
      hrl haddr hq hn (hget ▸ hmem) henv htg]
    rfl

/-- Witness for C4 (amended): a nonce without the `0x` head gets the
validation error; the short `0x`-prefixed nonce `"0x12"` gets the generic
500. -/
theorem nonce_format_handling_witness :
    handleSign envA st0 ⟨.str addrA, .num 1, .str "zz", "ip4"⟩ 0 draws0
        = (.badRequest "Invalid nonce format",
           ⟨st0.usedNonces,
            (rateLimiterStep st0.requestCounts "ip4" 0).2⟩)
    ∧ handleSign envA st0 ⟨.str addrA, .num 1, .str "0x12", "ip4b"⟩ 0 draws0
        = (.serverError "Failed to generate signature: invalid BytesLike value",
           ⟨st0.usedNonces,
            (rateLimiterStep st0.requestCounts "ip4b" 0).2⟩) :=
  ⟨(nonce_format_handling envA st0 ⟨.str addrA, .num 1, .str "zz", "ip4"⟩ 0
      draws0 (by decide) (by decide) (by decide)).1 (by decide),
   (nonce_format_handling envA st0 ⟨.str addrA, .num 1, .str "0x12", "ip4b"⟩
      0 draws0 (by decide) (by decide) (by decide)).2 "0x12" keyA rfl
      (by decide) (by decide) rfl (by decide) (by decide)⟩

/-- C5 counterexample: the catch handler at src/index.js:172-175 interpolates
the thrown exception's message into the 500 body — two different internal
failures produce two different responses, each embedding its exception
message, so the response is not a generic failure free of internal detail. -/
theorem internal_error_leaks_exception_message :
    (handleSign envA st0 ⟨.str addrA, .num 1, .str "0x12", "ip5"⟩ 0 draws0).1
        = .serverError ("Failed to generate signature: "
            ++ "invalid BytesLike value")
    ∧ (handleSign ⟨some "bad-key"⟩ st0 reqA 0 draws0).1
        = .serverError ("Failed to generate signature: "
            ++ "invalid private key")
    ∧ (handleSign envA st0 ⟨.str addrA, .num 1, .str "0x12", "ip5"⟩ 0
          draws0).1
        ≠ (handleSign ⟨some "bad-key"⟩ st0 reqA 0 draws0).1 := by
  decide

/-- C5 amended: every unexpected internal error caught at the orchestration
boundary is reported as a 500 whose error string is
"Failed to generate signature: " followed by the thrown exception's message —
no key material or stack state is echoed, but the exception message itself is
included in the response rather than a fixed generic text. -/
theorem internal_error_response_shape (env : Env) (st : ServerState)
    (req : SignRequest) (now : ℕ) (draws : ℕ → ℚ) (key msg : String)
    (hrl : (rateLimiterStep st.requestCounts req.ip now).1 = true)
    (haddr : addressValid req.address = true)
    (hq : quantityValid req.quantity = true)
    (hn : nonceValid req.nonce = true)
    (hmem : nonceHash req.nonce.getStr ∉ st.usedNonces)
    (henv : env.signerPrivateKey = some key)
    (htg : tryGenerate key req.address.getStr req.quantity.getNum
        req.nonce.getStr draws = .error msg) :
    (handleSign env st req now draws).1
      = .serverError ("Failed to generate signature: " ++ msg) := by
  rw [handleSign_tryError env st req now draws key msg hrl haddr hq hn hmem
    henv htg]

/-- Witness for C5 (amended) at a malformed key: the wallet-construction
failure's message appears in the 500 body. -/
theorem internal_error_response_shape_witness :
    (handleSign ⟨some "bad-key"⟩ st0 reqA 0 draws0).1
      = .serverError ("Failed to generate signature: "
          ++ "invalid private key") :=
  internal_error_response_shape ⟨some "bad-key"⟩ st0 reqA 0 draws0 "bad-key"
    "invalid private key" (by decide) (by decide) (by decide) (by decide)
    (by decide) rfl rfl

/-- C8 counterexample: at the maximal 32-bit word the drawn value
`0xFFFFFFFF / 0xFFFFFFFF` is exactly `1`, so the generator's draw ranges over
`[0, 1]`, not `[0, 1)` as claimed. -/
theorem draw_attains_one :
    drawValue 0xFFFFFFFF = 1 ∧ ¬ drawValue 0xFFFFFFFF < 1 := by
  decide

/-- C8 amended: the draw lies in the closed interval `[0, 1]` (the endpoint
`1` is attained at word `0xFFFFFFFF`); for every draw in `[0, 1]` the sampler
returns the first tier among `0..4` whose cumulative boundary is `≥` the
draw, and — because the float64 cumulative sum of the reference weights
`0.50, 0.25, 0.15, 0.07, 0.03` is exactly `1.0` at the last tier — the scan
always finds a tier, so the defensive fall-through is never triggered. -/
theorem rarity_first_tier_no_fallthrough :
    (∀ u : ℕ, u ≤ 0xFFFFFFFF → 0 ≤ drawValue u ∧ drawValue u ≤ 1)
    ∧ (∀ r : ℚ, 0 ≤ r → r ≤ 1 →
        ∃ i, rarityScan r = some i ∧ getRandomRarity r = i ∧ i ≤ 4
          ∧ r ≤ cumulativeBoundaries.getD i 0
          ∧ ∀ j, j < i → cumulativeBoundaries.getD j 0 < r) := by
  constructor
  · intro u hu
    unfold drawValue
    rw [Rat.mkRat_eq_div]
    constructor
    · positivity
    · rw [div_le_one (by norm_num)]
      have : (u : ℚ) ≤ 4294967295 := by exact_mod_cast hu
      push_cast
      norm_num
      exact_mod_cast this
  · intro r hr0 hr1
    by_cases h1 : r ≤ mkRat 1 2
    · refine ⟨0, ?_, ?_, by norm_num, ?_, by omega⟩
      · simp [rarityScan, rarityScanAux, cumulativeBoundaries, h1]
      · simp [getRandomRarity, rarityScan, rarityScanAux,
          cumulativeBoundaries, h1]
      · simpa [cumulativeBoundaries] using h1
    · by_cases h2 : r ≤ mkRat 3 4
      · refine ⟨1, ?_, ?_, by norm_num, ?_, ?_⟩
        · simp [rarityScan, rarityScanAux, cumulativeBoundaries, h1, h2]
        · simp [getRandomRarity, rarityScan, rarityScanAux,
            cumulativeBoundaries, h1, h2]
        · simpa [cumulativeBoundaries] using h2
        · intro j hj
          interval_cases j
          simpa [cumulativeBoundaries] using not_le.mp h1
      · by_cases h3 : r ≤ mkRat 8106479329266893 9007199254740992
        · refine ⟨2, ?_, ?_, by norm_num, ?_, ?_⟩
          · simp [rarityScan, rarityScanAux, cumulativeBoundaries, h1, h2, h3]
          · simp [getRandomRarity, rarityScan, rarityScanAux,
              cumulativeBoundaries, h1, h2, h3]
          · simpa [cumulativeBoundaries] using h3
          · intro j hj
            interval_cases j
            · simpa [cumulativeBoundaries] using not_le.mp h1
            · simpa [cumulativeBoundaries] using not_le.mp h2
        · by_cases h4 : r ≤ mkRat 4368491638549381 4503599627370496
          · refine ⟨3, ?_, ?_, by norm_num, ?_, ?_⟩
            · simp [rarityScan, rarityScanAux, cumulativeBoundaries,
                h1, h2, h3, h4]
            · simp [getRandomRarity, rarityScan, rarityScanAux,
                cumulativeBoundaries, h1, h2, h3, h4]
            · simpa [cumulativeBoundaries] using h4
            · intro j hj
              interval_cases j
              · simpa [cumulativeBoundaries] using not_le.mp h1
              · simpa [cumulativeBoundaries] using not_le.mp h2
              · simpa [cumulativeBoundaries] using not_le.mp h3
          · refine ⟨4, ?_, ?_, by norm_num, ?_, ?_⟩
            · simp [rarityScan, rarityScanAux, cumulativeBoundaries,
                h1, h2, h3, h4, hr1]
            · simp [getRandomRarity, rarityScan, rarityScanAux,
                cumulativeBoundaries, h1, h2, h3, h4, hr1]
            · simpa [cumulativeBoundaries] using hr1
            · intro j hj
              interval_cases j
              · simpa [cumulativeBoundaries] using not_le.mp h1
              · simpa [cumulativeBoundaries] using not_le.mp h2
              · simpa [cumulativeBoundaries] using not_le.mp h3
              · simpa [cumulativeBoundaries] using not_le.mp h4

/-- Witness for C8 (amended): the bounds hold at word 0 and the scan finds
tier 2 for the draw `9/10`. -/
theorem rarity_first_tier_no_fallthrough_witness :
    (0 ≤ drawValue 0 ∧ drawValue 0 ≤ 1)
    ∧ ∃ i, rarityScan (mkRat 9 10) = some i ∧ getRandomRarity (mkRat 9 10) = i
        ∧ i ≤ 4 ∧ mkRat 9 10 ≤ cumulativeBoundaries.getD i 0
        ∧ ∀ j, j < i → cumulativeBoundaries.getD j 0 < mkRat 9 10 :=
  ⟨rarity_first_tier_no_fallthrough.1 0 (by norm_num),
   rarity_first_tier_no_fallthrough.2 (mkRat 9 10) (by decide) (by decide)⟩

end MRT
